import Mathlib

/-!
Verification development for the kqueue-based file watcher
(`src/watchdog/utils/dirsnapshot.py` and `src/watchdog/observers/kqueue.py`).

The Python code is shallowly embedded as executable Lean definitions:

* the SQLite table written by `DirectorySnapshot` becomes an association
  list from path to row (`Table`); the `path TEXT PRIMARY KEY` together
  with `INSERT OR REPLACE` becomes `Table.upsert`;
* the collection of database files becomes a `DbStore` (a function from
  database path to table contents); `sqlite3.connect` with
  `CREATE TABLE IF NOT EXISTS` keeps any rows already present;
* the `stat` and `listdir` hooks become pure functions; `none` stands for
  the OSError outcomes that the code silences (individual `stat` failures
  are skipped, `listdir` failures with ENOENT/ENOTDIR/EINVAL end the
  subtree; the theorems below never rely on the re-raising errno classes);
* Python exceptions become `Except PyErr`;
* Python call binding (positional arguments, keyword arguments, defaults,
  `TypeError` on a missing or unexpected argument) is modelled by
  `bindCall`, so that call sites that pass the wrong arguments are
  settled by the same rules CPython applies.
-/

namespace Watchdog

/-- Python exceptions that the embedded code can raise. -/
inductive PyErr where
  | attributeError (name : String)
  | typeError (msg : String)
  | keyError
  | osError (errno : Nat)
  deriving DecidableEq, Repr

/-- Semantic file-system events produced by the emitter
(`watchdog.events` variants used by `kqueue.py`). -/
inductive Event where
  | dirCreated (path : String)
  | fileCreated (path : String)
  | dirModified (path : String)
  | fileModified (path : String)
  | dirDeleted (path : String)
  | fileDeleted (path : String)
  | dirMoved (src dest : String)
  | fileMoved (src dest : String)
  | subMoved (src dest : String)
  deriving DecidableEq, Repr

/-- Result of a successful `stat` call.  The code consults `st_mode` only
through `S_ISDIR`, so the mode is carried as the Boolean `isdir`; `st_mtime`
is a float compared only for equality, carried as an `Int`. -/
structure StatRes where
  st_ino : Nat
  st_dev : Nat
  isdir : Bool
  st_mtime : Int
  st_size : Nat
  deriving DecidableEq, Repr

/-- One row of the `snapshot` table:
`(path, inode, device, is_dir, mtime, size)`; `is_dir` is stored as the
integer `int(S_ISDIR(st.st_mode))`. -/
structure Row where
  inode : Nat
  device : Nat
  is_dir : Nat
  mtime : Int
  size : Nat
  deriving DecidableEq, Repr

/-- Row written by `add_entry_to_db` for a stat result. -/
def rowOf (st : StatRes) : Row :=
  ⟨st.st_ino, st.st_dev, if st.isdir then 1 else 0, st.st_mtime, st.st_size⟩

/-- Contents of one `snapshot` table: an association list keyed by the
`path` primary key. -/
abbrev Table := List (String × Row)

/-- Effect of `INSERT OR REPLACE` on the `path` primary key. -/
def Table.upsert (t : Table) (p : String) (r : Row) : Table :=
  if (t.lookup p).isSome then
    t.map (fun e => if e.1 = p then (p, r) else e)
  else
    t ++ [(p, r)]

/-- Query `SELECT path FROM snapshot` collected into a Python set
(the `paths` property). -/
def Table.pathsF (t : Table) : Finset String :=
  (t.map Prod.fst).toFinset

/-- Query behind `DirectorySnapshot.inode`: the `(inode, device)` row for a
path, or the `(None, None)` default when the path is absent. -/
def Table.inodeQ (t : Table) (p : String) : Option Nat × Option Nat :=
  match t.lookup p with
  | some r => (some r.inode, some r.device)
  | none => (none, none)

/-- Query behind `DirectorySnapshot.mtime`: `row[0] if row else None`. -/
def Table.mtimeQ (t : Table) (p : String) : Option Int :=
  match t.lookup p with
  | some r => some r.mtime
  | none => none

/-- Query behind `DirectorySnapshot.size`. -/
def Table.sizeQ (t : Table) (p : String) : Option Nat :=
  match t.lookup p with
  | some r => some r.size
  | none => none

/-- Query behind `DirectorySnapshot.isdir`: `bool(row[0]) if row else False`. -/
def Table.isdirQ (t : Table) (p : String) : Bool :=
  match t.lookup p with
  | some r => r.is_dir != 0
  | none => false

/-- Query behind `DirectorySnapshot.path(inode, device)`:
`SELECT path ... WHERE inode = ? AND device = ?` returning the first row;
a SQL comparison with NULL never matches. -/
def Table.pathQ (t : Table) (pr : Option Nat × Option Nat) : Option String :=
  match pr with
  | (some i, some d) =>
      (t.find? (fun e => e.2.inode = i && e.2.device = d)).map Prod.fst
  | _ => none

/-- State of the SQLite database files: contents of the `snapshot` table
under each database path (an absent or fresh file has the empty table). -/
abbrev DbStore := String → Table

/-- Store update at one database path. -/
def storeSet (s : DbStore) (d : String) (t : Table) : DbStore :=
  fun x => if x = d then t else s x

/-- Path concatenation performed by `os.path.join(root, entry.name)` for a
non-absolute entry name. -/
def joinPath (root name : String) : String :=
  root ++ "/" ++ name

/-- Embedding of `DirectorySnapshot.walk`.  The `stat` hook returns `none`
for the OSError outcomes the loop skips; the `listdir` hook returns `none`
for the silently handled ENOENT/ENOTDIR/EINVAL class; `PermissionError`
during recursion (suppressed by the code) does not arise for pure hooks.
The recursion of the source is bounded by the finite directory tree, which
the embedding expresses with a fuel parameter. -/
def walk (stat : String → Option StatRes) (listdir : String → Option (List String))
    (recursive : Bool) : Nat → String → List (String × StatRes)
  | 0, _ => []
  | fuel + 1, root =>
    match listdir root with
    | none => []
    | some names =>
        let ps := names.map (fun nm => joinPath root nm)
        let entries := ps.filterMap (fun p => (stat p).map (fun st => (p, st)))
        entries ++
          (if recursive then
            entries.flatMap
              (fun e => if e.2.isdir then walk stat listdir recursive fuel e.1 else [])
          else [])

/-- Table contents produced by `DirectorySnapshot.__init__` from an initial
table `t0` (the rows already in the database file): the root entry is
inserted first, then every entry yielded by `walk`. -/
def tableOfWalk (stat : String → Option StatRes) (listdir : String → Option (List String))
    (recursive : Bool) (fuel : Nat) (path : String) (rootStat : StatRes) (t0 : Table) : Table :=
  (walk stat listdir recursive fuel path).foldl
    (fun t e => t.upsert e.1 (rowOf e.2))
    (t0.upsert path (rowOf rootStat))

/-- Embedding of `DirectorySnapshot.__init__(path, db_path, recursive, stat,
listdir)`: connect to `db_path` (keeping existing rows, per
`CREATE TABLE IF NOT EXISTS`), stat the root (a failure there propagates out
of the constructor, modelled as `none`), then insert the walk entries.
Returns the updated database store; the snapshot object itself is just its
`db_path`, because every later query re-reads the database. -/
def DirectorySnapshot.mk (store : DbStore) (path db_path : String) (recursive : Bool)
    (stat : String → Option StatRes) (listdir : String → Option (List String))
    (fuel : Nat) : Option DbStore :=
  match stat path with
  | none => none
  | some st =>
      some (storeSet store db_path
        (tableOfWalk stat listdir recursive fuel path st (store db_path)))

/-- The `paths` property of a snapshot object, read from the live database. -/
def DirectorySnapshot.paths (store : DbStore) (db_path : String) : Finset String :=
  (store db_path).pathsF

/-- The `inode` query of a snapshot object, read from the live database. -/
def DirectorySnapshot.inode (store : DbStore) (db_path p : String) : Option Nat × Option Nat :=
  (store db_path).inodeQ p

/-- The `mtime` query of a snapshot object, read from the live database. -/
def DirectorySnapshot.mtime (store : DbStore) (db_path p : String) : Option Int :=
  (store db_path).mtimeQ p

/-- The `size` query of a snapshot object, read from the live database. -/
def DirectorySnapshot.size (store : DbStore) (db_path p : String) : Option Nat :=
  (store db_path).sizeQ p

/-- The `isdir` query of a snapshot object, read from the live database. -/
def DirectorySnapshot.isdir (store : DbStore) (db_path p : String) : Bool :=
  (store db_path).isdirQ p

/-- Predicate added to `modified` by `compute_diff` for a path in both
snapshots: first `(inode, device)` is compared component-wise, and only
when both components agree is `mtime` compared. -/
def modifiedPred (prevT curT : Table) (p : String) : Bool :=
  let pi := prevT.inodeQ p
  let ci := curT.inodeQ p
  if pi.1 ≠ ci.1 ∨ pi.2 ≠ ci.2 then true
  else decide (prevT.mtimeQ p ≠ curT.mtimeQ p)

/-- Embedding of `DirectorySnapshotDiff.compute_diff`, applied to the table
contents each snapshot reads at diff time. Returns `(added, removed,
modified)`. -/
def compute_diff (prevT curT : Table) : Finset String × Finset String × Finset String :=
  let previous_paths := prevT.pathsF
  let current_paths := curT.pathsF
  (current_paths \ previous_paths,
   previous_paths \ current_paths,
   (previous_paths ∩ current_paths).filter (fun p => modifiedPred prevT curT p = true))

/-- Embedding of `DirectorySnapshot.__sub__`: `self - previous` builds
`DirectorySnapshotDiff(previous, self)`, so the first table is the
right-hand operand. -/
def snapshotSub (curT prevT : Table) : Finset String × Finset String × Finset String :=
  compute_diff prevT curT

/-- Attributes bound on a `DirectorySnapshotDiff` instance by its
constructor. -/
structure DirectorySnapshotDiff where
  added : Finset String
  removed : Finset String
  modified : Finset String
  deriving DecidableEq

/-- Constructor of `DirectorySnapshotDiff`: stores the three sets computed
by `compute_diff`. -/
def DirectorySnapshotDiff.ofTables (prevT curT : Table) : DirectorySnapshotDiff :=
  let d := compute_diff prevT curT
  ⟨d.1, d.2.1, d.2.2⟩

/-- Set-valued attribute lookup on a `DirectorySnapshotDiff` instance.  The
class body and constructor bind exactly the data attributes `added`,
`removed` and `modified` (besides the two snapshot references); accessing
any other name raises `AttributeError`, modelled by `none`. -/
def DirectorySnapshotDiff.getattrSet (d : DirectorySnapshotDiff) (name : String) :
    Option (Finset String) :=
  if name = "added" then some d.added
  else if name = "removed" then some d.removed
  else if name = "modified" then some d.modified
  else none

/-- Python values that flow through the call sites settled below. -/
inductive PyVal where
  | str (s : String)
  | bool (b : Bool)
  | statOs
  | statCustom
  | listdirDefault
  | inodePair (i d : Option Nat)
  deriving DecidableEq, Repr

/-- Binding of keyword-or-default parameters once the positional ones are
consumed: the remaining parameters take their keyword value, else their
default, else raise `TypeError` for a missing required argument. -/
def bindRest (rest : List (String × Option PyVal)) (kw : List (String × PyVal)) :
    Except PyErr (List (String × PyVal)) :=
  match rest with
  | [] => .ok []
  | (n, dflt) :: rs =>
    match kw.lookup n with
    | some v =>
        match bindRest rs kw with
        | .ok tail => .ok ((n, v) :: tail)
        | .error e => .error e
    | none =>
        match dflt with
        | some v =>
            match bindRest rs kw with
            | .ok tail => .ok ((n, v) :: tail)
            | .error e => .error e
        | none => .error (.typeError ("missing required positional argument " ++ n))

/-- CPython call binding: positional arguments fill parameters in order
(too many raise `TypeError`), keyword arguments must name a parameter that
is not already positionally bound, and every remaining parameter needs a
keyword value or a default. -/
def bindCall (params : List (String × Option PyVal)) (pos : List PyVal)
    (kw : List (String × PyVal)) : Except PyErr (List (String × PyVal)) :=
  if params.length < pos.length then
    .error (.typeError "too many positional arguments")
  else
    let posBound := (params.zip pos).map (fun x => (x.1.1, x.2))
    let posNames := posBound.map Prod.fst
    if kw.any (fun kv => (params.lookup kv.1).isNone) then
      .error (.typeError "unexpected keyword argument")
    else if kw.any (fun kv => posNames.contains kv.1) then
      .error (.typeError "multiple values for argument")
    else
      match bindRest (params.drop pos.length) kw with
      | .ok tail => .ok (posBound ++ tail)
      | .error e => .error e

/-- Parameter list of `DirectorySnapshot.__init__` after `self`:
`(path, db_path, recursive=True, stat=os.stat, listdir=os.scandir)`. -/
def snapshotParams : List (String × Option PyVal) :=
  [("path", none), ("db_path", none), ("recursive", some (.bool true)),
   ("stat", some .statOs), ("listdir", some .listdirDefault)]

/-- Binding attempted by `KqueueEmitter.__init__` (kqueue.py line 455):
`DirectorySnapshot(watch.path, recursive=watch.is_recursive,
stat=custom_stat)`, where `custom_stat` is the registration-wrapping hook. -/
def kqueueInitSnapshotCall (watchPath : String) (isRecursive : Bool) :
    Except PyErr (List (String × PyVal)) :=
  bindCall snapshotParams [.str watchPath]
    [("recursive", .bool isRecursive), ("stat", .statCustom)]

/-- Binding performed by `KqueueEmitter.queue_events` (kqueue.py line 664):
`DirectorySnapshot(self.watch.path, self.watch.is_recursive)`, both
arguments positional. -/
def queueEventsSnapshotCall (watchPath : String) (isRecursive : Bool) :
    Except PyErr (List (String × PyVal)) :=
  bindCall snapshotParams [.str watchPath, .bool isRecursive] []

/-- Parameter list of `DirectorySnapshot.path` after `self`:
`(inode, device)`, both required. -/
def pathParams : List (String × Option PyVal) :=
  [("inode", none), ("device", none)]

/-- Step 5 of `queue_events` (kqueue.py lines 672-677): iterate
`diff_events.dirs_created`, then `diff_events.files_created`, then
`diff_events.files_modified`, queueing the corresponding events.  Each
attribute access goes through the instance, raising `AttributeError` when
the diff object does not bind the name.  Python set iteration order is
unspecified; the embedding enumerates each set in sorted order. -/
def diffPhase (d : DirectorySnapshotDiff) : Except PyErr (List Event) :=
  match d.getattrSet "dirs_created" with
  | none => .error (.attributeError "dirs_created")
  | some dirsCreated =>
    match d.getattrSet "files_created" with
    | none => .error (.attributeError "files_created")
    | some filesCreated =>
      match d.getattrSet "files_modified" with
      | none => .error (.attributeError "files_modified")
      | some filesModified =>
          .ok ((dirsCreated.sort (· ≤ ·)).map Event.dirCreated ++
               (filesCreated.sort (· ≤ ·)).map Event.fileCreated ++
               (filesModified.sort (· ≤ ·)).map Event.fileModified)

/-- Errno value `errno.ENOENT`. -/
def ENOENT : Nat := 2

/-- Errno value `errno.EBADF`. -/
def EBADF : Nat := 9

/-- Errno value `errno.EOPNOTSUPP` (BSD value). -/
def EOPNOTSUPP : Nat := 45

/-- Kernel fflag `select.KQ_NOTE_DELETE`. -/
def KQ_NOTE_DELETE : Nat := 0x1

/-- Kernel fflag `select.KQ_NOTE_WRITE`. -/
def KQ_NOTE_WRITE : Nat := 0x2

/-- Kernel fflag `select.KQ_NOTE_EXTEND`. -/
def KQ_NOTE_EXTEND : Nat := 0x4

/-- Kernel fflag `select.KQ_NOTE_ATTRIB`. -/
def KQ_NOTE_ATTRIB : Nat := 0x8

/-- Kernel fflag `select.KQ_NOTE_RENAME`. -/
def KQ_NOTE_RENAME : Nat := 0x20

/-- One raw kernel event: the fd it names and its fflags bitmask. -/
structure Kev where
  ident : Nat
  fflags : Nat
  deriving DecidableEq, Repr

/-- Flag test `is_deleted`: the source returns the masked integer, which is
truthy exactly when nonzero. -/
def is_deleted (kev : Kev) : Bool :=
  kev.fflags &&& KQ_NOTE_DELETE != 0

/-- Flag test `is_modified`: `(fflags & EXTEND) or (fflags & WRITE)`. -/
def is_modified (kev : Kev) : Bool :=
  (kev.fflags &&& KQ_NOTE_EXTEND != 0) || (kev.fflags &&& KQ_NOTE_WRITE != 0)

/-- Flag test `is_attrib_modified`. -/
def is_attrib_modified (kev : Kev) : Bool :=
  kev.fflags &&& KQ_NOTE_ATTRIB != 0

/-- Flag test `is_renamed`. -/
def is_renamed (kev : Kev) : Bool :=
  kev.fflags &&& KQ_NOTE_RENAME != 0

/-- A `KeventDescriptor`: normalized path, directory flag fixed at
creation, and the fd returned by `os.open`.  Its kevent record is
determined by the fd (filter, flags and fflags are the fixed constants),
so the embedding identifies the kevent with the fd. -/
structure KeventDescriptor where
  path : String
  is_directory : Bool
  fd : Nat
  deriving DecidableEq, Repr

/-- The kevent record owned by a descriptor, represented by its fd. -/
def KeventDescriptor.kevent (d : KeventDescriptor) : Nat := d.fd

/-- State of a `KeventDescriptorSet`.  The Python `_kevents` field holds a
reference to a mutable list object; the embedding gives each list object a
heap cell (`heap`, indexed by allocation order) and stores the cell index
in `kevRef`, so aliasing between the accessor's result and the internal
list is observable.  The set of descriptors and the two indices are kept
as lists in insertion order. -/
structure KeventDescriptorSet where
  descriptors : List KeventDescriptor
  descForPath : List (String × KeventDescriptor)
  descForFd : List (Nat × KeventDescriptor)
  heap : List (List Nat)
  kevRef : Nat
  deriving DecidableEq, Repr

namespace KeventDescriptorSet

/-- State built by `KeventDescriptorSet.__init__`: empty indices and a
freshly allocated empty `_kevents` list. -/
def init : KeventDescriptorSet := ⟨[], [], [], [[]], 0⟩

/-- The `kevents` property: `return self._kevents` hands out the internal
list object itself, i.e. the reference, not a copy. -/
def kevents (s : KeventDescriptorSet) : Nat := s.kevRef

/-- Contents a holder of list reference `r` observes in state `s`. -/
def observeList (s : KeventDescriptorSet) (r : Nat) : List Nat :=
  s.heap.getD r []

/-- The `_add_descriptor` helper: add to the descriptor set, append the
kevent to the `_kevents` list in place, and extend both indices. -/
def addDescriptor (s : KeventDescriptorSet) (d : KeventDescriptor) : KeventDescriptorSet :=
  { descriptors := s.descriptors ++ [d]
    descForPath := s.descForPath ++ [(d.path, d)]
    descForFd := s.descForFd ++ [(d.fd, d)]
    heap := s.heap.set s.kevRef (s.observeList s.kevRef ++ [d.kevent])
    kevRef := s.kevRef }

/-- The `add(path, is_directory)` operation.  `absolute_path` (the
`abspath` of `normpath`) is supplied as the hook `normF`; constructing the
`KeventDescriptor` calls `os.open`, whose outcome is supplied as
`openResult` (`Except.error e` for an `OSError` with errno `e`).  When the
path is already present the construction is not attempted. -/
def add (normF : String → String) (s : KeventDescriptorSet)
    (openResult : Except Nat Nat) (path : String) (is_directory : Bool) :
    Except Nat KeventDescriptorSet :=
  let p := normF path
  if (s.descForPath.lookup p).isSome then .ok s
  else
    match openResult with
    | .error e => .error e
    | .ok fd => .ok (s.addDescriptor ⟨p, is_directory, fd⟩)

/-- The `remove(path)` operation: when present, remove the descriptor from
the set and both indices, and remove its kevent from the `_kevents` list in
place (`list.remove` deletes the first equal element). -/
def remove (normF : String → String) (s : KeventDescriptorSet) (path : String) :
    KeventDescriptorSet :=
  let p := normF path
  match s.descForPath.lookup p with
  | none => s
  | some d =>
      { descriptors := s.descriptors.erase d
        descForPath := s.descForPath.filter (fun e => e.1 ≠ p)
        descForFd := s.descForFd.filter (fun e => e.1 ≠ d.fd)
        heap := s.heap.set s.kevRef ((s.observeList s.kevRef).erase d.kevent)
        kevRef := s.kevRef }

/-- The `clear()` operation: close every descriptor, clear the indices,
and rebind `self._kevents` to a newly allocated empty list; the previous
list object is left untouched on the heap. -/
def clear (s : KeventDescriptorSet) : KeventDescriptorSet :=
  { descriptors := []
    descForPath := []
    descForFd := []
    heap := s.heap ++ [[]]
    kevRef := s.heap.length }

end KeventDescriptorSet

/-- Embedding of `KqueueEmitter._register_kevent`: attempt
`self._descriptors.add`; an `OSError` with errno ENOENT or EOPNOTSUPP is
swallowed (nothing is queued — the Created/Deleted synthesis is commented
out in the source), every other errno propagates.  Returns the new set
state together with the (always empty) list of queued events. -/
def register_kevent (normF : String → String) (s : KeventDescriptorSet)
    (openResult : Except Nat Nat) (path : String) (is_directory : Bool) :
    Except Nat (KeventDescriptorSet × List Event) :=
  match KeventDescriptorSet.add normF s openResult path is_directory with
  | .ok s2 => .ok (s2, [])
  | .error e =>
      if e = ENOENT then .ok (s, [])
      else if e = EOPNOTSUPP then .ok (s, [])
      else .error e

/-- The `os.path.dirname` of a path, as used by `_parent_dir_modified`. -/
def dirname (p : String) : String :=
  String.intercalate "/" (p.splitOn "/").dropLast

/-- Embedding of `KqueueEmitter._gen_renamed_events`.  The
`try/except KeyError` around `ref_snapshot.inode(src_path)` protects a call
that can no longer raise `KeyError` — the table-backed `inode` returns the
`(None, None)` row default — so the handler that would emit the
Created/Deleted pair is unreachable.  The destination lookup
`new_snapshot.path(f_inode)` passes the inode tuple as a single positional
argument to `DirectorySnapshot.path(self, inode, device)`, which `bindCall`
settles by CPython's rules.  The remainder of the body (lines 605-632),
reachable only on a successful binding, is translated after the binding. -/
def gen_renamed_events (normF : String → String) (refT newT : Table)
    (watchIsRecursive : Bool) (src_path : String) (is_directory : Bool) :
    Except PyErr (List Event) :=
  let f_inode := refT.inodeQ src_path
  match bindCall pathParams [.inodePair f_inode.1 f_inode.2] [] with
  | .error e => .error e
  | .ok _ =>
    match newT.pathQ f_inode with
    | some dp =>
        let dest_path := normF dp
        .ok ((if is_directory then [Event.dirMoved src_path dest_path]
              else [Event.fileMoved src_path dest_path]) ++
             [Event.dirModified (dirname src_path),
              Event.dirModified (dirname dest_path)] ++
             (if is_directory && watchIsRecursive then
                [Event.subMoved src_path dest_path]
              else []))
    | none =>
        .ok ((if is_directory then [Event.dirDeleted src_path]
              else [Event.fileDeleted src_path]) ++
             [Event.dirModified (dirname src_path)])

/-- Embedding of `KqueueEmitter._gen_kqueue_events` for one raw kernel
event: `get_for_fd` is a plain dict lookup that raises `KeyError` for an
unknown fd; otherwise the fflags decide the branch exactly as in the
source. -/
def gen_kqueue_events (normF : String → String)
    (descForFd : List (Nat × KeventDescriptor)) (watchPath : String)
    (watchIsRecursive : Bool) (refT newT : Table) (kev : Kev) :
    Except PyErr (List Event) :=
  match descForFd.lookup kev.ident with
  | none => .error .keyError
  | some descriptor =>
    let src_path := descriptor.path
    if is_renamed kev then
      gen_renamed_events normF refT newT watchIsRecursive src_path
        descriptor.is_directory
    else if is_attrib_modified kev then
      .ok [if descriptor.is_directory then Event.dirModified src_path
           else Event.fileModified src_path]
    else if is_modified kev then
      if descriptor.is_directory then
        if watchIsRecursive || watchPath = src_path then
          .ok [Event.dirModified src_path]
        else .ok []
      else .ok [Event.fileModified src_path]
    else if is_deleted kev then
      .ok [if descriptor.is_directory then Event.dirDeleted src_path
           else Event.fileDeleted src_path]
    else .ok []

/-- The raw-event loop of `queue_events` (kqueue.py lines 679-683): each
raw event is translated and its events queued; an exception stops the loop
with the events queued so far.  The descriptor bookkeeping that
`queue_event` performs per queued event does not alter `descForFd` before
the first translation, which is all the theorems below depend on. -/
def processKevents (normF : String → String)
    (descForFd : List (Nat × KeventDescriptor)) (watchPath : String)
    (watchIsRecursive : Bool) (refT newT : Table) :
    List Kev → List Event × Option PyErr
  | [] => ([], none)
  | kev :: rest =>
    match gen_kqueue_events normF descForFd watchPath watchIsRecursive refT newT kev with
    | .error e => ([], some e)
    | .ok evs =>
        let (tail, err) :=
          processKevents normF descForFd watchPath watchIsRecursive refT newT rest
        (evs ++ tail, err)

/-- The `except OSError` clause wrapping the body of `queue_events`
(kqueue.py lines 685-687): an `OSError` with errno EBADF is swallowed,
every other exception — including `KeyError`, which is not an `OSError` —
propagates. -/
def queueEventsRawPhase (normF : String → String)
    (descForFd : List (Nat × KeventDescriptor)) (watchPath : String)
    (watchIsRecursive : Bool) (refT newT : Table) (kevs : List Kev) :
    List Event × Option PyErr :=
  match processKevents normF descForFd watchPath watchIsRecursive refT newT kevs with
  | (evs, some (.osError e)) =>
      if e = EBADF then (evs, none) else (evs, some (.osError e))
  | other => other

lemma modifiedPred_iff (prevT curT : Table) (p : String) :
    modifiedPred prevT curT p = true ↔
      (prevT.inodeQ p ≠ curT.inodeQ p ∨
        (prevT.inodeQ p = curT.inodeQ p ∧ prevT.mtimeQ p ≠ curT.mtimeQ p)) := by
  unfold modifiedPred
  by_cases h : (prevT.inodeQ p).1 ≠ (curT.inodeQ p).1 ∨ (prevT.inodeQ p).2 ≠ (curT.inodeQ p).2
  · rw [if_pos h]
    constructor
    · intro _
      left
      intro he
      rcases h with h1 | h2
      · exact h1 (congrArg Prod.fst he)
      · exact h2 (congrArg Prod.snd he)
    · intro _
      rfl
  · rw [if_neg h]
    push_neg at h
    have heq : prevT.inodeQ p = curT.inodeQ p := Prod.ext h.1 h.2
    simp only [decide_eq_true_eq]
    constructor
    · intro hm
      exact Or.inr ⟨heq, hm⟩
    · rintro (hne | ⟨_, hm⟩)
      · exact absurd heq hne
      · exact hm

lemma modifiedPred_symm (xT yT : Table) (p : String) :
    modifiedPred xT yT p = modifiedPred yT xT p := by
  unfold modifiedPred
  have hiff : ((xT.inodeQ p).1 ≠ (yT.inodeQ p).1 ∨ (xT.inodeQ p).2 ≠ (yT.inodeQ p).2) ↔
      ((yT.inodeQ p).1 ≠ (xT.inodeQ p).1 ∨ (yT.inodeQ p).2 ≠ (xT.inodeQ p).2) := by
    constructor <;>
      · rintro (h | h)
        · exact Or.inl (Ne.symm h)
        · exact Or.inr (Ne.symm h)
  by_cases h : (xT.inodeQ p).1 ≠ (yT.inodeQ p).1 ∨ (xT.inodeQ p).2 ≠ (yT.inodeQ p).2
  · rw [if_pos h, if_pos (hiff.mp h)]
  · rw [if_neg h, if_neg (fun hc => h (hiff.mpr hc))]
    exact decide_eq_decide.mpr ⟨Ne.symm, Ne.symm⟩

/-- C4: for any two snapshots, the diff satisfies
`added = current.paths minus previous.paths`,
`removed = previous.paths minus current.paths`, `modified` is exactly the
set of paths in both snapshots whose `(inode, device)` differs or, when it
is equal, whose `mtime` differs; and the three sets are pairwise
disjoint. -/
theorem compute_diff_sets_characterization (prevT curT : Table) :
    (compute_diff prevT curT).1 = curT.pathsF \ prevT.pathsF ∧
    (compute_diff prevT curT).2.1 = prevT.pathsF \ curT.pathsF ∧
    (∀ p, p ∈ (compute_diff prevT curT).2.2 ↔
        p ∈ prevT.pathsF ∧ p ∈ curT.pathsF ∧
          (prevT.inodeQ p ≠ curT.inodeQ p ∨
            (prevT.inodeQ p = curT.inodeQ p ∧ prevT.mtimeQ p ≠ curT.mtimeQ p))) ∧
    Disjoint (compute_diff prevT curT).1 (compute_diff prevT curT).2.1 ∧
    Disjoint (compute_diff prevT curT).1 (compute_diff prevT curT).2.2 ∧
    Disjoint (compute_diff prevT curT).2.1 (compute_diff prevT curT).2.2 := by
  have hmem : ∀ p, p ∈ (compute_diff prevT curT).2.2 ↔
      p ∈ prevT.pathsF ∧ p ∈ curT.pathsF ∧
        (prevT.inodeQ p ≠ curT.inodeQ p ∨
          (prevT.inodeQ p = curT.inodeQ p ∧ prevT.mtimeQ p ≠ curT.mtimeQ p)) := by
    intro p
    unfold compute_diff
    simp only [Finset.mem_filter, Finset.mem_inter, modifiedPred_iff, and_assoc]
  refine ⟨rfl, rfl, hmem, ?_, ?_, ?_⟩
  · rw [Finset.disjoint_left]
    intro a ha hb
    have ha' : a ∈ curT.pathsF ∧ a ∉ prevT.pathsF := Finset.mem_sdiff.mp ha
    have hb' : a ∈ prevT.pathsF ∧ a ∉ curT.pathsF := Finset.mem_sdiff.mp hb
    exact ha'.2 hb'.1
  · rw [Finset.disjoint_left]
    intro a ha hb
    have ha' : a ∈ curT.pathsF ∧ a ∉ prevT.pathsF := Finset.mem_sdiff.mp ha
    exact ha'.2 ((hmem a).mp hb).1
  · rw [Finset.disjoint_left]
    intro a ha hb
    have ha' : a ∈ prevT.pathsF ∧ a ∉ curT.pathsF := Finset.mem_sdiff.mp ha
    exact ha'.2 ((hmem a).mp hb).2.1

/-- C6: subtracting two snapshots in one order is the exact inverse of
subtracting them in the other: `added` and `removed` swap and `modified`
coincides. -/
theorem snapshot_sub_inverse (aT bT : Table) :
    (snapshotSub aT bT).1 = (snapshotSub bT aT).2.1 ∧
    (snapshotSub aT bT).2.1 = (snapshotSub bT aT).1 ∧
    (snapshotSub aT bT).2.2 = (snapshotSub bT aT).2.2 := by
  refine ⟨rfl, rfl, ?_⟩
  unfold snapshotSub compute_diff
  ext p
  simp only [Finset.mem_filter, Finset.mem_inter]
  rw [modifiedPred_symm bT aT p]
  exact ⟨fun h => ⟨⟨h.1.2, h.1.1⟩, h.2⟩, fun h => ⟨⟨h.1.2, h.1.1⟩, h.2⟩⟩

/-- C1 (refuting theorem): `DirectorySnapshotDiff` binds only `added`,
`removed` and `modified`, so step 5 of every event cycle raises
`AttributeError` at the very first access `diff_events.dirs_created` and
queues no event at all, for any pair of snapshot tables. -/
theorem diff_phase_attribute_error (prevT curT : Table) :
    diffPhase (DirectorySnapshotDiff.ofTables prevT curT) =
      .error (.attributeError "dirs_created") := rfl

/-- C2 (refuting theorem): the snapshot constructor call in
`KqueueEmitter.__init__` fails to bind — `db_path` has no default and no
argument, a `TypeError` — and the fresh-snapshot call in `queue_events`
binds `db_path` to `watch.is_recursive` and leaves `stat` at its default
`os.stat`, not the registration-wrapping hook. -/
theorem emitter_snapshot_call_bindings (watchPath : String) (isRecursive : Bool) :
    kqueueInitSnapshotCall watchPath isRecursive =
      .error (.typeError "missing required positional argument db_path") ∧
    queueEventsSnapshotCall watchPath isRecursive =
      .ok [("path", .str watchPath), ("db_path", .bool isRecursive),
           ("recursive", .bool true), ("stat", .statOs),
           ("listdir", .listdirDefault)] :=
  ⟨rfl, rfl⟩

/-- C5 (refuting theorem): `_gen_renamed_events` raises `TypeError` for
every input — in particular when `src_path` has no inode entry in the
reference snapshot — because `ref_snapshot.inode` returns its `(None,
None)` default instead of raising the `KeyError` the dead handler waits
for, and the destination lookup `new_snapshot.path(f_inode)` passes one
tuple where `path(self, inode, device)` requires two arguments; no
Created/Deleted pair is ever emitted. -/
theorem gen_renamed_events_always_type_error (normF : String → String)
    (refT newT : Table) (watchIsRecursive : Bool) (src_path : String)
    (is_directory : Bool) :
    gen_renamed_events normF refT newT watchIsRecursive src_path is_directory =
      .error (.typeError "missing required positional argument device") := rfl

/-- C8: a registration failure with errno ENOENT or EOPNOTSUPP is silently
swallowed — the descriptor set is left as it was and no event is queued —
while a failure with any other errno propagates to the caller. -/
theorem register_kevent_error_policy (normF : String → String)
    (s : KeventDescriptorSet) (path : String) (is_directory : Bool) (e : Nat)
    (habs : s.descForPath.lookup (normF path) = none)
    (h1 : e ≠ ENOENT) (h2 : e ≠ EOPNOTSUPP) :
    register_kevent normF s (.error ENOENT) path is_directory = .ok (s, []) ∧
    register_kevent normF s (.error EOPNOTSUPP) path is_directory = .ok (s, []) ∧
    register_kevent normF s (.error e) path is_directory = .error e := by
  unfold register_kevent KeventDescriptorSet.add
  simp [habs, h1, h2]

/-- Witness for C8 at the empty descriptor set, path `/w/a` and errno 9
(EBADF, neither of the swallowed classes). -/
theorem register_kevent_error_policy_witness :
    ((KeventDescriptorSet.init.descForPath.lookup ((fun q => q) "/w/a")) = none ∧
      (9 : Nat) ≠ ENOENT ∧ (9 : Nat) ≠ EOPNOTSUPP) ∧
    (register_kevent (fun q => q) KeventDescriptorSet.init (.error ENOENT) "/w/a" false =
        .ok (KeventDescriptorSet.init, []) ∧
      register_kevent (fun q => q) KeventDescriptorSet.init (.error EOPNOTSUPP) "/w/a" false =
        .ok (KeventDescriptorSet.init, []) ∧
      register_kevent (fun q => q) KeventDescriptorSet.init (.error 9) "/w/a" false =
        .error 9) :=
  ⟨⟨rfl, by decide, by decide⟩,
    register_kevent_error_policy (fun q => q) KeventDescriptorSet.init "/w/a" false 9
      rfl (by decide) (by decide)⟩

/-- Database store with no pre-existing database files. -/
def c3Store0 : DbStore := fun _ => []

/-- Stat hook for a tree holding only the root directory, mtime 5. -/
def c3Stat1 : String → Option StatRes :=
  fun p => if p = "r" then some ⟨1, 1, true, 5, 0⟩ else none

/-- Stat hook for the same tree after the root's mtime moved to 7. -/
def c3Stat2 : String → Option StatRes :=
  fun p => if p = "r" then some ⟨1, 1, true, 7, 0⟩ else none

/-- Listdir hook for the empty root directory. -/
def c3Listdir : String → Option (List String) := fun _ => some []

/-- Store after the first snapshot of root `r` is written to database `d`. -/
def c3Store1 : DbStore := storeSet c3Store0 "d" [("r", ⟨1, 1, 1, 5, 0⟩)]

/-- Store after a second snapshot of root `r` is written to the same
database `d`. -/
def c3Store2 : DbStore := storeSet c3Store1 "d" [("r", ⟨1, 1, 1, 7, 0⟩)]

/-- C3 (counterexample): a snapshot is not immutable after construction.
The first snapshot of root `r` at database `d` answers `mtime r = 5`;
constructing a successor snapshot of the same root at the same database
rewrites the shared `snapshot` table, after which the first snapshot's
`mtime` query answers `7`. -/
theorem snapshot_mutated_by_same_db_successor :
    DirectorySnapshot.mk c3Store0 "r" "d" true c3Stat1 c3Listdir 1 = some c3Store1 ∧
    DirectorySnapshot.mtime c3Store1 "d" "r" = some 5 ∧
    DirectorySnapshot.mk c3Store1 "r" "d" true c3Stat2 c3Listdir 1 = some c3Store2 ∧
    DirectorySnapshot.mtime c3Store2 "d" "r" = some 7 ∧
    DirectorySnapshot.mtime c3Store2 "d" "r" ≠ DirectorySnapshot.mtime c3Store1 "d" "r" :=
  ⟨rfl, rfl, rfl, rfl, by decide⟩

/-- C3 (amended): a snapshot's query results are unchanged by the later
construction of another snapshot, provided the successor is written to a
different database path; the successor only rewrites its own database. -/
theorem snapshot_queries_stable_distinct_db (store : DbStore) (d1 d2 root : String)
    (recursive : Bool) (stat : String → Option StatRes)
    (listdir : String → Option (List String)) (fuel : Nat) (store2 : DbStore)
    (p : String) (hne : d1 ≠ d2)
    (hbuild : DirectorySnapshot.mk store root d2 recursive stat listdir fuel = some store2) :
    DirectorySnapshot.paths store2 d1 = DirectorySnapshot.paths store d1 ∧
    DirectorySnapshot.inode store2 d1 p = DirectorySnapshot.inode store d1 p ∧
    DirectorySnapshot.mtime store2 d1 p = DirectorySnapshot.mtime store d1 p ∧
    DirectorySnapshot.size store2 d1 p = DirectorySnapshot.size store d1 p ∧
    DirectorySnapshot.isdir store2 d1 p = DirectorySnapshot.isdir store d1 p := by
  have hst : store2 d1 = store d1 := by
    unfold DirectorySnapshot.mk at hbuild
    cases hstat : stat root with
    | none =>
        rw [hstat] at hbuild
        cases hbuild
    | some st =>
        rw [hstat] at hbuild
        injection hbuild with h
        rw [← h]
        unfold storeSet
        rw [if_neg hne]
  exact ⟨by unfold DirectorySnapshot.paths; rw [hst],
         by unfold DirectorySnapshot.inode; rw [hst],
         by unfold DirectorySnapshot.mtime; rw [hst],
         by unfold DirectorySnapshot.size; rw [hst],
         by unfold DirectorySnapshot.isdir; rw [hst]⟩

/-- Witness for the amended C3: the successor written to database `e` does
not disturb the snapshot held at database `d`. -/
theorem snapshot_queries_stable_distinct_db_witness :
    (("d" : String) ≠ "e" ∧
      DirectorySnapshot.mk c3Store1 "r" "e" true c3Stat2 c3Listdir 1 =
        some (storeSet c3Store1 "e" [("r", ⟨1, 1, 1, 7, 0⟩)])) ∧
    (DirectorySnapshot.paths (storeSet c3Store1 "e" [("r", ⟨1, 1, 1, 7, 0⟩)]) "d" =
        DirectorySnapshot.paths c3Store1 "d" ∧
      DirectorySnapshot.inode (storeSet c3Store1 "e" [("r", ⟨1, 1, 1, 7, 0⟩)]) "d" "r" =
        DirectorySnapshot.inode c3Store1 "d" "r" ∧
      DirectorySnapshot.mtime (storeSet c3Store1 "e" [("r", ⟨1, 1, 1, 7, 0⟩)]) "d" "r" =
        DirectorySnapshot.mtime c3Store1 "d" "r" ∧
      DirectorySnapshot.size (storeSet c3Store1 "e" [("r", ⟨1, 1, 1, 7, 0⟩)]) "d" "r" =
        DirectorySnapshot.size c3Store1 "d" "r" ∧
      DirectorySnapshot.isdir (storeSet c3Store1 "e" [("r", ⟨1, 1, 1, 7, 0⟩)]) "d" "r" =
        DirectorySnapshot.isdir c3Store1 "d" "r") :=
  ⟨⟨by decide, rfl⟩,
    snapshot_queries_stable_distinct_db c3Store1 "d" "e" "r" true c3Stat2 c3Listdir 1
      (storeSet c3Store1 "e" [("r", ⟨1, 1, 1, 7, 0⟩)]) "r" (by decide) rfl⟩

lemma compute_diff_self (t : Table) : compute_diff t t = (∅, ∅, ∅) := by
  have hpred : ∀ p, modifiedPred t t p = false := by
    intro p
    unfold modifiedPred
    simp
  unfold compute_diff
  simp [hpred]

/-- Store holding a stale `snapshot` table under database path `a`. -/
def c7DirtyStore : DbStore :=
  fun x => if x = "a" then [("ghost", ⟨9, 9, 0, 0, 0⟩)] else []

/-- Stat hook for a tree holding only the root directory `r`. -/
def c7Stat : String → Option StatRes :=
  fun p => if p = "r" then some ⟨1, 1, true, 5, 0⟩ else none

/-- Listdir hook for the empty root directory. -/
def c7Listdir : String → Option (List String) := fun _ => some []

/-- Store after the first back-to-back snapshot is written to the dirty
database `a`: the stale `ghost` row survives `CREATE TABLE IF NOT EXISTS`. -/
def c7Store1 : DbStore :=
  storeSet c7DirtyStore "a" [("ghost", ⟨9, 9, 0, 0, 0⟩), ("r", ⟨1, 1, 1, 5, 0⟩)]

/-- Store after the second back-to-back snapshot is written to the fresh
database `b`. -/
def c7Store2 : DbStore := storeSet c7Store1 "b" [("r", ⟨1, 1, 1, 5, 0⟩)]

/-- C7 (counterexample): two back-to-back snapshots of the same root with
identical stat and listdir results do not always produce an empty diff:
when the first snapshot lands in a database that already holds a stale row
and the second in a fresh one, the stale path surfaces in `removed`. -/
theorem back_to_back_diff_nonempty_dirty_db :
    DirectorySnapshot.mk c7DirtyStore "r" "a" true c7Stat c7Listdir 1 = some c7Store1 ∧
    DirectorySnapshot.mk c7Store1 "r" "b" true c7Stat c7Listdir 1 = some c7Store2 ∧
    (compute_diff (c7Store2 "a") (c7Store2 "b")).2.1 ≠ ∅ :=
  ⟨rfl, rfl, by decide⟩

/-- C7 (amended): two back-to-back snapshots of the same root whose stat
and listdir hooks return identical results produce an empty diff provided
they are written to one shared database path, or to two distinct database
paths whose tables start empty; the diff is `new - ref`, computed from the
tables both snapshots read after the second construction. -/
theorem back_to_back_snapshots_empty_diff (store : DbStore) (root d1 d2 : String)
    (recursive : Bool) (stat : String → Option StatRes)
    (listdir : String → Option (List String)) (fuel : Nat) (store1 store2 : DbStore)
    (hcase : d1 = d2 ∨ (d1 ≠ d2 ∧ store d1 = [] ∧ store d2 = []))
    (h1 : DirectorySnapshot.mk store root d1 recursive stat listdir fuel = some store1)
    (h2 : DirectorySnapshot.mk store1 root d2 recursive stat listdir fuel = some store2) :
    compute_diff (store2 d1) (store2 d2) = (∅, ∅, ∅) := by
  cases hstat : stat root with
  | none =>
      unfold DirectorySnapshot.mk at h1
      rw [hstat] at h1
      cases h1
  | some st =>
      unfold DirectorySnapshot.mk at h1 h2
      rw [hstat] at h1 h2
      injection h1 with h1
      injection h2 with h2
      subst h1
      subst h2
      rcases hcase with heq | ⟨hne, he1, he2⟩
      · subst heq
        exact compute_diff_self _
      · have g1 : storeSet
            (storeSet store d1 (tableOfWalk stat listdir recursive fuel root st (store d1)))
            d2 (tableOfWalk stat listdir recursive fuel root st
              (storeSet store d1 (tableOfWalk stat listdir recursive fuel root st (store d1)) d2))
            d1 = tableOfWalk stat listdir recursive fuel root st (store d1) := by
          unfold storeSet
          rw [if_neg hne, if_pos rfl]
        have g2 : storeSet
            (storeSet store d1 (tableOfWalk stat listdir recursive fuel root st (store d1)))
            d2 (tableOfWalk stat listdir recursive fuel root st
              (storeSet store d1 (tableOfWalk stat listdir recursive fuel root st (store d1)) d2))
            d2 = tableOfWalk stat listdir recursive fuel root st (store d2) := by
          unfold storeSet
          rw [if_pos rfl, if_neg (Ne.symm hne)]
        rw [g1, g2, he1, he2]
        exact compute_diff_self _

/-- Witness for the amended C7 in the shared-database case. -/
theorem back_to_back_snapshots_empty_diff_witness :
    ((("d" : String) = "d" ∨ (("d" : String) ≠ "d" ∧ c3Store0 "d" = [] ∧ c3Store0 "d" = [])) ∧
      DirectorySnapshot.mk c3Store0 "r" "d" true c7Stat c7Listdir 1 =
        some (storeSet c3Store0 "d" [("r", ⟨1, 1, 1, 5, 0⟩)]) ∧
      DirectorySnapshot.mk (storeSet c3Store0 "d" [("r", ⟨1, 1, 1, 5, 0⟩)]) "r" "d" true
          c7Stat c7Listdir 1 =
        some (storeSet (storeSet c3Store0 "d" [("r", ⟨1, 1, 1, 5, 0⟩)]) "d"
          [("r", ⟨1, 1, 1, 5, 0⟩)])) ∧
    compute_diff
        (storeSet (storeSet c3Store0 "d" [("r", ⟨1, 1, 1, 5, 0⟩)]) "d"
          [("r", ⟨1, 1, 1, 5, 0⟩)] "d")
        (storeSet (storeSet c3Store0 "d" [("r", ⟨1, 1, 1, 5, 0⟩)]) "d"
          [("r", ⟨1, 1, 1, 5, 0⟩)] "d") = (∅, ∅, ∅) :=
  ⟨⟨Or.inl rfl, rfl, rfl⟩,
    back_to_back_snapshots_empty_diff c3Store0 "r" "d" "d" true c7Stat c7Listdir 1
      (storeSet c3Store0 "d" [("r", ⟨1, 1, 1, 5, 0⟩)])
      (storeSet (storeSet c3Store0 "d" [("r", ⟨1, 1, 1, 5, 0⟩)]) "d"
        [("r", ⟨1, 1, 1, 5, 0⟩)])
      (Or.inl rfl) rfl rfl⟩

/-- Fd index holding only the known descriptor for fd 7. -/
def c9DescForFd : List (Nat × KeventDescriptor) := [(7, ⟨"/w/b", false, 7⟩)]

/-- Raw event list of one cycle: an event for the unknown fd 5 followed by
a DELETE event for the known fd 7. -/
def c9Kevs : List Kev := [⟨5, 1⟩, ⟨7, 1⟩]

/-- C9 (counterexample): a raw event naming an fd absent from the fd index
is not dropped.  With fd 5 unknown and fd 7 known, the cycle stops at the
first event with a `KeyError` that the `except OSError` clause does not
catch, and the remaining DELETE event for fd 7 produces nothing. -/
theorem raw_event_unknown_fd_cex :
    queueEventsRawPhase (fun q => q) c9DescForFd "/w" true [] [] c9Kevs =
      ([], some .keyError) ∧
    (queueEventsRawPhase (fun q => q) c9DescForFd "/w" true [] [] c9Kevs).2 ≠ none ∧
    Event.fileDeleted "/w/b" ∉
      (queueEventsRawPhase (fun q => q) c9DescForFd "/w" true [] [] c9Kevs).1 := by
  refine ⟨by decide, by decide, by decide⟩

/-- C9 (amended): a raw kernel event whose fd is not in the fd index makes
`get_for_fd` raise `KeyError`; the error is not an `OSError`, so the
`except` clause of `queue_events` does not swallow it, the error
propagates, and neither this event nor any later raw event of the cycle
emits anything. -/
theorem raw_event_unknown_fd_propagates (normF : String → String)
    (descForFd : List (Nat × KeventDescriptor)) (watchPath : String)
    (watchIsRecursive : Bool) (refT newT : Table) (kev : Kev) (rest : List Kev)
    (h : descForFd.lookup kev.ident = none) :
    queueEventsRawPhase normF descForFd watchPath watchIsRecursive refT newT
      (kev :: rest) = ([], some .keyError) := by
  unfold queueEventsRawPhase processKevents gen_kqueue_events
  rw [h]

/-- Witness for the amended C9 at the empty fd index. -/
theorem raw_event_unknown_fd_propagates_witness :
    (([] : List (Nat × KeventDescriptor)).lookup (3 : Nat) = none) ∧
    queueEventsRawPhase (fun q => q) [] "/w" false [] [] [⟨3, 1⟩] =
      ([], some .keyError) :=
  ⟨rfl, raw_event_unknown_fd_propagates (fun q => q) [] "/w" false [] [] ⟨3, 1⟩ [] rfl⟩

lemma getD_set_self {α : Type} (l : List α) (i : Nat) (x d : α) (h : i < l.length) :
    (l.set i x).getD i d = x := by
  induction l generalizing i with
  | nil => simp at h
  | cons a t ih =>
      cases i with
      | zero => rfl
      | succ n =>
          have hn : n < t.length := Nat.lt_of_succ_lt_succ h
          simpa [List.set, List.getD] using ih n hn

lemma getD_append_left_of_lt {α : Type} (l1 l2 : List α) (i : Nat) (d : α)
    (h : i < l1.length) : (l1 ++ l2).getD i d = l1.getD i d := by
  induction l1 generalizing i with
  | nil => simp at h
  | cons a t ih =>
      cases i with
      | zero => rfl
      | succ n =>
          have hn : n < t.length := Nat.lt_of_succ_lt_succ h
          simpa [List.getD] using ih n hn

/-- Descriptor set state after adding the descriptor for `/w/a` with fd 3
to a fresh set. -/
def c10S1 : KeventDescriptorSet :=
  ⟨[⟨"/w/a", false, 3⟩], [("/w/a", ⟨"/w/a", false, 3⟩)], [(3, ⟨"/w/a", false, 3⟩)],
    [[3]], 0⟩

/-- C10 (counterexample): the `kevents` accessor hands out the internal
list, not a copy.  The list obtained from a fresh set reads `[]`; after one
`add`, reading the same reference yields `[3]` — the held list changed. -/
theorem kevents_alias_mutated_by_add :
    KeventDescriptorSet.add (fun q => q) KeventDescriptorSet.init (.ok 3) "/w/a" false =
      .ok c10S1 ∧
    KeventDescriptorSet.observeList c10S1
        (KeventDescriptorSet.kevents KeventDescriptorSet.init) ≠
      KeventDescriptorSet.observeList KeventDescriptorSet.init
        (KeventDescriptorSet.kevents KeventDescriptorSet.init) :=
  ⟨rfl, by decide⟩

/-- C10 (amended): the `kevents` accessor returns an alias of the internal
filter-record list: an effective `add` appends the new kevent in place, so
a previously obtained list changes; `clear` instead rebinds the internal
field to a new list and leaves the previously obtained list unchanged. -/
theorem kevents_alias_add_clear (normF : String → String)
    (s : KeventDescriptorSet) (fd : Nat) (path : String) (is_directory : Bool)
    (habs : s.descForPath.lookup (normF path) = none)
    (hlt : s.kevRef < s.heap.length) :
    KeventDescriptorSet.add normF s (.ok fd) path is_directory =
      .ok (s.addDescriptor ⟨normF path, is_directory, fd⟩) ∧
    KeventDescriptorSet.observeList (s.addDescriptor ⟨normF path, is_directory, fd⟩)
        (KeventDescriptorSet.kevents s) =
      KeventDescriptorSet.observeList s (KeventDescriptorSet.kevents s) ++ [fd] ∧
    KeventDescriptorSet.observeList (KeventDescriptorSet.clear s)
        (KeventDescriptorSet.kevents s) =
      KeventDescriptorSet.observeList s (KeventDescriptorSet.kevents s) := by
  refine ⟨?_, ?_, ?_⟩
  · unfold KeventDescriptorSet.add
    simp [habs]
  · unfold KeventDescriptorSet.observeList KeventDescriptorSet.addDescriptor
      KeventDescriptorSet.kevents KeventDescriptor.kevent
    exact getD_set_self s.heap s.kevRef _ [] hlt
  · unfold KeventDescriptorSet.observeList KeventDescriptorSet.clear
      KeventDescriptorSet.kevents
    exact getD_append_left_of_lt s.heap [[]] s.kevRef [] hlt

/-- Witness for the amended C10 at a fresh descriptor set, path `/w/c` and
fd 4. -/
theorem kevents_alias_add_clear_witness :
    (KeventDescriptorSet.init.descForPath.lookup ((fun q => q) "/w/c") = none ∧
      KeventDescriptorSet.init.kevRef < KeventDescriptorSet.init.heap.length) ∧
    (KeventDescriptorSet.add (fun q => q) KeventDescriptorSet.init (.ok 4) "/w/c" false =
        .ok (KeventDescriptorSet.init.addDescriptor ⟨(fun q => q) "/w/c", false, 4⟩) ∧
      KeventDescriptorSet.observeList
          (KeventDescriptorSet.init.addDescriptor ⟨(fun q => q) "/w/c", false, 4⟩)
          (KeventDescriptorSet.kevents KeventDescriptorSet.init) =
        KeventDescriptorSet.observeList KeventDescriptorSet.init
          (KeventDescriptorSet.kevents KeventDescriptorSet.init) ++ [4] ∧
      KeventDescriptorSet.observeList (KeventDescriptorSet.clear KeventDescriptorSet.init)
          (KeventDescriptorSet.kevents KeventDescriptorSet.init) =
        KeventDescriptorSet.observeList KeventDescriptorSet.init
          (KeventDescriptorSet.kevents KeventDescriptorSet.init)) :=
  ⟨⟨rfl, by decide⟩,
    kevents_alias_add_clear (fun q => q) KeventDescriptorSet.init 4 "/w/c" false rfl
      (by decide)⟩

end Watchdog
